import Mathlib

/-!
Shallow embedding of the stream I/O binding (src/luv_stream.c) and the
POSIX environment accessor (src/lenv.c) of the luvit bridge layer.

Native completion handlers and stream operations are modelled as pure
functions from explicit state (handle, Lua registry, callback context) to
updated state together with a trace of observable effects (events emitted,
script callbacks invoked, allocations freed).  A call to luaL_error, which
aborts the surrounding C function by a longjmp, is modelled by the `raised`
field of the result: state mutations performed before the raise persist,
effects that would have followed it do not occur.

Helpers that live in files of this repository outside src/ (luv_handle.c,
utils.c, buffer.c) are modelled from the spec; each such definition carries
a doc comment saying so.
-/

namespace Luv

/-- Result of uv_last_error: the native error code of the loop.  The code
of luv_stream.c only ever compares the code against UV_EOF. -/
structure UvErr where
  code : Int
deriving Repr, DecidableEq

/-- Numeric value standing for the UV_EOF member of the uv_err_code
enumeration of the bound libuv.  The source compares err.code against it
only for equality, so any fixed value is faithful. -/
def UV_EOF : Int := 27

/-- Script-visible byte buffer (the buffer type of buffer.h): a byte
sequence together with the read-only flag isConst used by luv_on_read. -/
structure Buffer where
  data : List Nat
  isConst : Bool
deriving Repr, DecidableEq

/-- Modelled from the spec: buffer_slice (buffer.c, not under src/) produces
a buffer holding length bytes of the parent starting at offset, per the
buffer capability "slice(offset, length) -> buffer". -/
def buffer_slice (b : Buffer) (offset length : Nat) : Buffer :=
  { data := (b.data.drop offset).take length, isConst := false }

/-- Values stored in the Lua registry: a script function (identified by an
id), a buffer (for instance a write payload), or some other value. -/
inductive RegVal where
  | func (id : Nat)
  | buf (b : Buffer)
  | other
deriving Repr, DecidableEq

/-- The scripting runtime's global reference table: slots keyed by opaque
integer reference ids, with a fresh-key counter. -/
structure Registry where
  slots : List (Nat × RegVal)
  next : Nat
deriving Repr, DecidableEq

/-- Register a value, returning the new reference id (luaL_ref). -/
def Registry.register (r : Registry) (v : RegVal) : Nat × Registry :=
  (r.next, { slots := (r.next, v) :: r.slots, next := r.next + 1 })

/-- Look a reference id up (lua_rawgeti on LUA_REGISTRYINDEX). -/
def Registry.lookup (r : Registry) (k : Nat) : Option RegVal :=
  match r.slots.find? (fun p => p.1 == k) with
  | some p => some p.2
  | none => none

/-- Release a reference id (luaL_unref). -/
def Registry.release (r : Registry) (k : Nat) : Registry :=
  { slots := r.slots.filter (fun p => p.1 != k), next := r.next }

/-- Modelled from the spec: a value held in the reference table is reachable
by the collector and therefore its storage is not freed or reused. -/
def Registry.keepsAlive (r : Registry) (v : RegVal) : Prop :=
  ∃ p ∈ r.slots, p.2 = v

/-- Modelled from the spec: luv_io_ctx_t (utils.h, not under src/) pairs an
optional registered callback reference with an optional registered
auxiliary data reference, both keyed into the reference table. -/
structure IoCtx where
  cbRef : Option Nat
  dataRef : Option Nat
deriving Repr, DecidableEq

/-- Modelled from the spec: luv_io_ctx_init clears both slots. -/
def luv_io_ctx_init : IoCtx := { cbRef := none, dataRef := none }

/-- Modelled from the spec: luv_io_ctx_add registers an auxiliary data value
(for example the buffer being written) in the reference table and records
its id in the context. -/
def luv_io_ctx_add (reg : Registry) (c : IoCtx) (v : RegVal) : Registry × IoCtx :=
  let p := reg.register v
  (p.2, { c with dataRef := some p.1 })

/-- Modelled from the spec: luv_io_ctx_callback_add registers the callback
value in the reference table and records its id in the context. -/
def luv_io_ctx_callback_add (reg : Registry) (c : IoCtx) (v : RegVal) : Registry × IoCtx :=
  let p := reg.register v
  (p.2, { c with cbRef := some p.1 })

/-- Modelled from the spec: luv_io_ctx_callback_rawgeti looks the registered
callback reference up in the reference table. -/
def luv_io_ctx_callback_rawgeti (reg : Registry) (c : IoCtx) : Option RegVal :=
  match c.cbRef with
  | some k => reg.lookup k
  | none => none

/-- Modelled from the spec: luv_io_ctx_unref releases both registered
references of the context. -/
def luv_io_ctx_unref (reg : Registry) (c : IoCtx) : Registry :=
  let r1 := match c.cbRef with
    | some k => reg.release k
    | none => reg
  match c.dataRef with
  | some k => r1.release k
  | none => r1

/-- A value pushed onto the Lua stack as an event or callback argument:
an async error value, a buffer (snapshot of the buffer value at the moment
it is pushed), or an integer. -/
inductive LV where
  | err (opname : String) (code : Int)
  | bufV (b : Buffer)
  | int (n : Int)
deriving Repr, DecidableEq

/-- Modelled from the spec: luv_push_async_error builds an error value
carrying the operation name and the native error code. -/
def luv_push_async_error (e : UvErr) (opname : String) : LV :=
  LV.err opname e.code

/-- Observable effects of the binding, in execution order: event emission
(luv_emit_event), direct callback invocation (luv_acall on a registered
callback), the native listen call, a buffer_slice allocation, setting the
read buffer's isConst flag, and the frees performed by completion
handlers. -/
inductive Eff where
  | emit (event : String) (args : List LV)
  | acall (f : Nat) (args : List LV) (traceName : String)
  | uvListen (backlog : Nat)
  | sliceOp (offset length : Nat)
  | setConst (b : Bool)
  | freeBufBase
  | freeCtx
  | freeReq
deriving Repr, DecidableEq

/-- Number of free(req) effects in a trace. -/
def countReqFrees : List Eff → Nat
  | [] => 0
  | Eff.freeReq :: t => countReqFrees t + 1
  | _ :: t => countReqFrees t

/-- Number of free(buf.base) effects in a trace. -/
def countBufFrees : List Eff → Nat
  | [] => 0
  | Eff.freeBufBase :: t => countBufFrees t + 1
  | _ :: t => countBufFrees t

/-- The script-visible wrapper of a native stream handle: keep-alive
reference count, the buffer slot used for reads (lhandle->buffer), and the
registered event listeners (event name paired with the listener function's
id, in registration order). -/
structure LuvHandle where
  refCount : Nat
  buffer : Buffer
  listeners : List (String × Nat)
deriving Repr, DecidableEq

/-- Modelled from the spec: luv_handle_ref (luv_handle.c, not under src/)
increments the handle's keep-alive reference count. -/
def luv_handle_ref (h : LuvHandle) : LuvHandle :=
  { h with refCount := h.refCount + 1 }

/-- Modelled from the spec: luv_handle_unref decrements the handle's
keep-alive reference count. -/
def luv_handle_unref (h : LuvHandle) : LuvHandle :=
  { h with refCount := h.refCount - 1 }

/-- Modelled from the spec: luv_register_event (luv_handle.c, not under
src/) registers the given callback as a listener for the named event on the
handle, in registration order. -/
def luv_register_event (h : LuvHandle) (event : String) (cb : Nat) : LuvHandle :=
  { h with listeners := h.listeners ++ [(event, cb)] }

/-- Result of a native-invoked callback that mutates a handle: the handle
state on return, the effect trace, and the luaL_error message when the call
aborted by raising (in which case effects after the raise do not occur). -/
structure CRes where
  state : LuvHandle
  effs : List Eff
  raised : Option String
deriving Repr, DecidableEq

/-- Message of the luaL_error raised by luv_on_read on reentry with the
read buffer already marked read-only (luv_stream.c line 45). -/
def readonly_reentry_msg : String :=
  "Accidentally wrote incoming data into a readonly buffer. Did you resume a coroutine from inside a data event listener?"

/-- Embedding of luv_on_connection (luv_stream.c lines 24-34): on status -1
push an async error and emit "error", otherwise emit "connection" with no
arguments. -/
def luv_on_connection (status : Int) (lastErr : UvErr) : List Eff :=
  if status = -1 then
    [Eff.emit "error" [luv_push_async_error lastErr "on_connection"]]
  else
    [Eff.emit "connection" []]

/-- Embedding of luv_on_read (luv_stream.c lines 36-83).  For nread >= 0:
raise if the handle's buffer is already read-only; otherwise push the
buffer, slice it to nread bytes when nread differs from the buffer length,
push nread, set isConst around the "data" dispatch, and free buf.base.  For
nread < 0: emit "end" on UV_EOF, otherwise an "error" with an async error
value, then free buf.base. -/
def luv_on_read (h : LuvHandle) (nread : Int) (lastErr : UvErr) : CRes :=
  if 0 ≤ nread then
    if h.buffer.isConst then
      { state := h, effs := [], raised := some readonly_reentry_msg }
    else
      let n := nread.toNat
      let pushed :=
        if n ≠ h.buffer.data.length then
          (buffer_slice h.buffer 0 n, [Eff.sliceOp 0 n])
        else
          (h.buffer, ([] : List Eff))
      { state := { h with buffer := { h.buffer with isConst := false } },
        effs := pushed.2 ++
          [Eff.setConst true,
           Eff.emit "data" [LV.bufV pushed.1, LV.int nread],
           Eff.setConst false,
           Eff.freeBufBase],
        raised := none }
  else
    if lastErr.code = UV_EOF then
      { state := h, effs := [Eff.emit "end" [], Eff.freeBufBase], raised := none }
    else
      { state := h,
        effs := [Eff.emit "error" [luv_push_async_error lastErr "on_read"], Eff.freeBufBase],
        raised := none }

/-- Embedding of luv_after_connect (luv_stream.c lines 85-97): on status -1
push an async error and emit "error", otherwise emit "connect"; then free
the request.  It takes no callback context and touches no handle
reference. -/
def luv_after_connect (status : Int) (lastErr : UvErr) : List Eff :=
  (if status = -1 then
     [Eff.emit "error" [luv_push_async_error lastErr "after_connect"]]
   else
     [Eff.emit "connect" []]) ++ [Eff.freeReq]

/-- Result of a request completion handler: updated registry, updated
handle, effect trace. -/
structure CompletionRes where
  reg : Registry
  handle : LuvHandle
  effs : List Eff
deriving Repr, DecidableEq

/-- Embedding of luv_after_shutdown (luv_stream.c lines 100-125): look up
the registered callback, release the context's references, invoke the
callback (with an async error on status -1, with no arguments otherwise) if
it is a function, release the handle's keep-alive reference, free the
context and the request. -/
def luv_after_shutdown (reg : Registry) (cbs : IoCtx) (h : LuvHandle)
    (status : Int) (lastErr : UvErr) : CompletionRes :=
  let cb := luv_io_ctx_callback_rawgeti reg cbs
  let reg1 := luv_io_ctx_unref reg cbs
  let callEffs : List Eff :=
    match cb with
    | some (RegVal.func f) =>
        if status = -1 then
          [Eff.acall f [luv_push_async_error lastErr "after_shutdown"] "after_shutdown"]
        else
          [Eff.acall f [] "after_shutdown"]
    | _ => []
  { reg := reg1, handle := luv_handle_unref h,
    effs := callEffs ++ [Eff.freeCtx, Eff.freeReq] }

/-- Embedding of luv_after_write (luv_stream.c lines 127-152): identical
discipline to luv_after_shutdown with operation name "after_write". -/
def luv_after_write (reg : Registry) (cbs : IoCtx) (h : LuvHandle)
    (status : Int) (lastErr : UvErr) : CompletionRes :=
  let cb := luv_io_ctx_callback_rawgeti reg cbs
  let reg1 := luv_io_ctx_unref reg cbs
  let callEffs : List Eff :=
    match cb with
    | some (RegVal.func f) =>
        if status = -1 then
          [Eff.acall f [luv_push_async_error lastErr "after_write"] "after_write"]
        else
          [Eff.acall f [] "after_write"]
    | _ => []
  { reg := reg1, handle := luv_handle_unref h,
    effs := callEffs ++ [Eff.freeCtx, Eff.freeReq] }

/-- Modelled from the spec and libuv: uv_strerror renders a native error as
a message string. -/
def uv_strerror (e : UvErr) : String :=
  "uv error " ++ toString e.code

/-- Embedding of luv_listen (luv_stream.c lines 173-192): register the
callback as the "connection" listener, call the native uv_listen with the
backlog (default 128); if the native call fails, raise "listen: ..." via
luaL_error; otherwise emit "listening" and pin a keep-alive reference.
uv_listen_result is the return value of the native call. -/
def luv_listen (h : LuvHandle) (cb : Nat) (backlog : Option Nat)
    (uv_listen_result : Int) (lastErr : UvErr) : CRes :=
  let backlog_size := backlog.getD 128
  let h1 := luv_register_event h "connection" cb
  if uv_listen_result ≠ 0 then
    { state := h1, effs := [Eff.uvListen backlog_size],
      raised := some ("listen: " ++ uv_strerror lastErr) }
  else
    { state := luv_handle_ref h1,
      effs := [Eff.uvListen backlog_size, Eff.emit "listening" []],
      raised := none }

/-- Embedding of luv_read_start (luv_stream.c lines 205-210): start native
reads and pin a keep-alive reference. -/
def luv_read_start (h : LuvHandle) : LuvHandle :=
  luv_handle_ref h

/-- Embedding of luv_read_stop (luv_stream.c lines 216-221): stop native
reads and release the keep-alive reference. -/
def luv_read_stop (h : LuvHandle) : LuvHandle :=
  luv_handle_unref h

/-- Embedding of luv_read_stop_noref (luv_stream.c lines 226-230): stop
native reads without touching the reference count. -/
def luv_read_stop_noref (h : LuvHandle) : LuvHandle :=
  h

/-- An in-flight write request: its owned callback context and the raw
pointer-and-length view of the chunk handed to uv_write (uv_buf_init of
BUFFER_DATA(chunk) and chunk->length). -/
structure WriteReq where
  cbs : IoCtx
  nativeBuf : List Nat
deriving Repr, DecidableEq

/-- Result of issuing a write: updated registry and handle, and the new
request. -/
structure WriteIssue where
  reg : Registry
  handle : LuvHandle
  req : WriteReq
deriving Repr, DecidableEq

/-- Embedding of luv_write (luv_stream.c lines 238-262): allocate a request
and a context, register the buffer (stack slot 2) and the callback (stack
slot 3) in the context, pin a keep-alive reference, and hand uv_write a raw
view of the chunk's bytes. -/
def luv_write (reg : Registry) (h : LuvHandle) (chunk : Buffer) (cbv : RegVal) : WriteIssue :=
  let cbs := luv_io_ctx_init
  let p1 := luv_io_ctx_add reg cbs (RegVal.buf chunk)
  let p2 := luv_io_ctx_callback_add p1.1 p1.2 cbv
  { reg := p2.1, handle := luv_handle_ref h,
    req := { cbs := p2.2, nativeBuf := chunk.data } }

/-- An in-flight shutdown request: its owned callback context. -/
structure ShutdownReq where
  cbs : IoCtx
deriving Repr, DecidableEq

/-- Result of issuing a shutdown. -/
structure ShutdownIssue where
  reg : Registry
  handle : LuvHandle
  req : ShutdownReq
deriving Repr, DecidableEq

/-- Embedding of luv_shutdown (luv_stream.c lines 154-171): allocate a
request and a context, register the callback (stack slot 2), pin a
keep-alive reference, and issue the native shutdown. -/
def luv_shutdown (reg : Registry) (h : LuvHandle) (cbv : RegVal) : ShutdownIssue :=
  let cbs := luv_io_ctx_init
  let p := luv_io_ctx_callback_add reg cbs cbv
  { reg := p.1, handle := luv_handle_ref h, req := { cbs := p.2 } }

/-- End-to-end scenario: issue a write and immediately run its completion
with the given native status. -/
def write_then_complete (reg : Registry) (h : LuvHandle) (chunk : Buffer) (cbv : RegVal)
    (status : Int) (lastErr : UvErr) : CompletionRes :=
  let issue := luv_write reg h chunk cbv
  luv_after_write issue.reg issue.req.cbs issue.handle status lastErr

/-! Embedding of the POSIX branch of lenv.c. -/

/-- The POSIX process environment: an association of names to values; a
name not present means getenv returns NULL. -/
abbrev Env := List (String × String)

/-- getenv: the value of the named variable, or none (NULL) when the
variable is not present in the environment. -/
def getenv (env : Env) (name : String) : Option String :=
  match env.find? (fun p => p.1 == name) with
  | some p => some p.2
  | none => none

/-- A computation that either produces a value or crashes (undefined
behaviour such as a null pointer dereference). -/
inductive CrashOr (α : Type) where
  | crash (why : String)
  | ok (a : α)
deriving Repr, DecidableEq

/-- strlen applied to a possibly-NULL pointer: dereferences NULL when the
pointer is absent. -/
def strlen (p : Option String) : CrashOr Nat :=
  match p with
  | none => CrashOr.crash "null pointer dereference in strlen"
  | some s => CrashOr.ok s.length

/-- Modelled from the spec: buffer_wrap (buffer.c, not under src/) wraps
existing storage of the given length as a buffer; wrapping NULL is a
crash. -/
def buffer_wrap (p : Option String) (len : Nat) : CrashOr Buffer :=
  match p with
  | none => CrashOr.crash "null pointer wrapped as buffer"
  | some s => CrashOr.ok { data := (s.toList.map Char.toNat).take len, isConst := false }

/-- Embedding of the POSIX branch of lenv_get (lenv.c lines 92-96): call
getenv, then unconditionally pass the result to strlen and buffer_wrap. -/
def lenv_get (env : Env) (name : String) : CrashOr Buffer :=
  let value := getenv env name
  match strlen value with
  | CrashOr.crash why => CrashOr.crash why
  | CrashOr.ok len => buffer_wrap value len

/-! Concrete sample values used by the witnesses below. -/

/-- A 5-byte writable buffer. -/
def bufW5 : Buffer := { data := [1, 2, 3, 4, 5], isConst := false }

/-- A 3-byte writable buffer. -/
def bufW3 : Buffer := { data := [1, 2, 3], isConst := false }

/-- An empty writable buffer. -/
def bufW0 : Buffer := { data := [], isConst := false }

/-- A handle whose read buffer is the 5-byte buffer. -/
def hRead5 : LuvHandle := { refCount := 1, buffer := bufW5, listeners := [] }

/-- A handle whose read buffer is the 3-byte buffer. -/
def hRead3 : LuvHandle := { refCount := 1, buffer := bufW3, listeners := [] }

/-- A fresh handle with no listeners and no pinned references. -/
def hFresh : LuvHandle := { refCount := 0, buffer := bufW0, listeners := [] }

end Luv

namespace Luv

/-! Helper lemmas about the reference table. -/

theorem lookup_release_self (r : Registry) (k : Nat) :
    (r.release k).lookup k = none := by
  unfold Registry.lookup Registry.release
  have hnone : (r.slots.filter (fun p => p.1 != k)).find? (fun p => p.1 == k) = none := by
    rw [List.find?_eq_none]
    intro x hx
    have h2 := (List.mem_filter.mp hx).2
    simp only [bne_iff_ne, ne_eq] at h2
    simp [h2]
  simp [hnone]

theorem lookup_release_none (r : Registry) (k j : Nat) (hn : r.lookup k = none) :
    (r.release j).lookup k = none := by
  unfold Registry.lookup Registry.release
  unfold Registry.lookup at hn
  cases hfind : r.slots.find? (fun p => p.1 == k) with
  | some p => rw [hfind] at hn; simp at hn
  | none =>
    have hall := List.find?_eq_none.mp hfind
    have hnone : (r.slots.filter (fun p => p.1 != j)).find? (fun p => p.1 == k) = none := by
      rw [List.find?_eq_none]
      intro x hx
      exact hall x (List.mem_filter.mp hx).1
    simp [hnone]

theorem lookup_unref_cb (r : Registry) (c : IoCtx) (k : Nat) (hc : c.cbRef = some k) :
    (luv_io_ctx_unref r c).lookup k = none := by
  unfold luv_io_ctx_unref
  rw [hc]
  cases hd : c.dataRef with
  | none => exact lookup_release_self r k
  | some j => exact lookup_release_none _ k j (lookup_release_self r k)

theorem lookup_unref_data (r : Registry) (c : IoCtx) (k : Nat) (hd : c.dataRef = some k) :
    (luv_io_ctx_unref r c).lookup k = none := by
  unfold luv_io_ctx_unref
  rw [hd]
  cases hc : c.cbRef with
  | none => exact lookup_release_self r k
  | some j => exact lookup_release_self (r.release j) k

end Luv

open Luv

/-- C8: for every read_start followed by a matching read_stop, the handle's
keep-alive reference count equals its value before the pair (read_start
increments by one, read_stop decrements by one). -/
theorem read_start_read_stop_net_zero (h : LuvHandle) :
    (luv_read_stop (luv_read_start h)).refCount = h.refCount := by
  simp [luv_read_stop, luv_read_start, luv_handle_ref, luv_handle_unref]

/-- C2: for every write whose completion arrives, on status not -1 the
callback is invoked with zero arguments, on status -1 it is invoked with
exactly one error value carrying the operation name "after_write"; in both
cases the keep-alive count returns to its pre-write value and the request
is freed exactly once. -/
theorem write_completion_behaviour (reg : Registry) (h : LuvHandle) (chunk : Buffer)
    (f : Nat) (status : Int) (lastErr : UvErr) :
    (status ≠ -1 →
      (write_then_complete reg h chunk (RegVal.func f) status lastErr).effs =
        [Eff.acall f [] "after_write", Eff.freeCtx, Eff.freeReq]) ∧
    (status = -1 →
      (write_then_complete reg h chunk (RegVal.func f) status lastErr).effs =
        [Eff.acall f [luv_push_async_error lastErr "after_write"] "after_write",
         Eff.freeCtx, Eff.freeReq]) ∧
    (write_then_complete reg h chunk (RegVal.func f) status lastErr).handle.refCount
      = h.refCount ∧
    countReqFrees (write_then_complete reg h chunk (RegVal.func f) status lastErr).effs
      = 1 := by
  unfold write_then_complete luv_write luv_after_write luv_io_ctx_callback_rawgeti
    luv_io_ctx_add luv_io_ctx_callback_add luv_io_ctx_init Registry.register Registry.lookup
  by_cases hs : status = -1 <;>
    simp [hs, luv_handle_ref, luv_handle_unref, countReqFrees, luv_io_ctx_unref]

/-- Witness for C2: a concrete write of the bytes of "hello" completing
with native status 0 (success). -/
theorem write_completion_behaviour_witness :
    (write_then_complete { slots := [], next := 0 }
        { refCount := 0, buffer := { data := [], isConst := false }, listeners := [] }
        { data := [104, 101, 108, 108, 111], isConst := false }
        (RegVal.func 7) 0 { code := 0 }).effs =
      [Eff.acall 7 [] "after_write", Eff.freeCtx, Eff.freeReq] ∧
    (write_then_complete { slots := [], next := 0 }
        { refCount := 0, buffer := { data := [], isConst := false }, listeners := [] }
        { data := [104, 101, 108, 108, 111], isConst := false }
        (RegVal.func 7) 0 { code := 0 }).handle.refCount = 0 ∧
    countReqFrees (write_then_complete { slots := [], next := 0 }
        { refCount := 0, buffer := { data := [], isConst := false }, listeners := [] }
        { data := [104, 101, 108, 108, 111], isConst := false }
        (RegVal.func 7) 0 { code := 0 }).effs = 1 := by
  have hw := write_completion_behaviour { slots := [], next := 0 }
    { refCount := 0, buffer := { data := [], isConst := false }, listeners := [] }
    { data := [104, 101, 108, 108, 111], isConst := false } 7 0 { code := 0 }
  exact ⟨hw.1 (by decide), hw.2.2.1, hw.2.2.2⟩

/-- C1 counterexample: at a successful connect completion (status 0) the
handler's whole effect trace is an event emission followed by freeing the
request; it frees no callback context (and, by its code, looks up no
registered callback and releases no keep-alive reference), so the connect
handler does not share the write/shutdown completion discipline. -/
theorem after_connect_counterexample :
    luv_after_connect 0 { code := 0 } = [Eff.emit "connect" [], Eff.freeReq] ∧
    Eff.freeCtx ∉ luv_after_connect 0 { code := 0 } := by
  refine ⟨rfl, ?_⟩
  decide

/-- C1 amended: the write and shutdown completion handlers share one
discipline (look up and release the registered callback reference, invoke
the callback with an error value on status -1 or no arguments otherwise,
release the handle's keep-alive reference, free the context and the
request), while the connect completion handler instead emits a "connect"
event on success or an "error" event on failure and frees only the
request: it uses no callback context, invokes no registered callback
directly, and releases no keep-alive reference. -/
theorem completion_discipline_amended (reg : Registry) (cbs : IoCtx) (h : LuvHandle)
    (status : Int) (lastErr : UvErr) (f k : Nat)
    (hcb : cbs.cbRef = some k) (hlk : reg.lookup k = some (RegVal.func f)) :
    ((luv_after_write reg cbs h status lastErr).effs =
        [Eff.acall f
          (if status = -1 then [luv_push_async_error lastErr "after_write"] else [])
          "after_write", Eff.freeCtx, Eff.freeReq] ∧
     (luv_after_write reg cbs h status lastErr).handle.refCount = h.refCount - 1 ∧
     (luv_after_write reg cbs h status lastErr).reg.lookup k = none) ∧
    ((luv_after_shutdown reg cbs h status lastErr).effs =
        [Eff.acall f
          (if status = -1 then [luv_push_async_error lastErr "after_shutdown"] else [])
          "after_shutdown", Eff.freeCtx, Eff.freeReq] ∧
     (luv_after_shutdown reg cbs h status lastErr).handle.refCount = h.refCount - 1 ∧
     (luv_after_shutdown reg cbs h status lastErr).reg.lookup k = none) ∧
    (luv_after_connect status lastErr =
      (if status = -1 then [Eff.emit "error" [luv_push_async_error lastErr "after_connect"]]
       else [Eff.emit "connect" []]) ++ [Eff.freeReq] ∧
     Eff.freeCtx ∉ luv_after_connect status lastErr ∧
     ∀ g args nm, Eff.acall g args nm ∉ luv_after_connect status lastErr) := by
  have hwu := lookup_unref_cb reg cbs k hcb
  refine ⟨⟨?_, ?_, ?_⟩, ⟨?_, ?_, ?_⟩, ?_, ?_, ?_⟩ <;>
    first
    | (intro g args nm
       by_cases hs : status = -1 <;>
         simp [luv_after_connect, hs, luv_push_async_error])
    | (by_cases hs : status = -1 <;>
       simp [luv_after_write, luv_after_shutdown, luv_after_connect,
         luv_io_ctx_callback_rawgeti, hcb, hlk, hs, luv_handle_unref, hwu,
         luv_push_async_error])

/-- Witness for C1 at a concrete context whose callback reference 5 maps to
the function 9, completing with status -1. -/
theorem completion_discipline_amended_witness :
    (⟨some 5, none⟩ : IoCtx).cbRef = some 5 ∧
    ({ slots := [(5, RegVal.func 9)], next := 6 } : Registry).lookup 5
      = some (RegVal.func 9) ∧
    (luv_after_write { slots := [(5, RegVal.func 9)], next := 6 } ⟨some 5, none⟩
        { refCount := 3, buffer := { data := [], isConst := false }, listeners := [] }
        (-1) { code := 2 }).handle.refCount = 2 ∧
    (luv_after_write { slots := [(5, RegVal.func 9)], next := 6 } ⟨some 5, none⟩
        { refCount := 3, buffer := { data := [], isConst := false }, listeners := [] }
        (-1) { code := 2 }).reg.lookup 5 = none ∧
    Eff.freeCtx ∉ luv_after_connect (-1) { code := 2 } := by
  have hw := completion_discipline_amended { slots := [(5, RegVal.func 9)], next := 6 }
    ⟨some 5, none⟩
    { refCount := 3, buffer := { data := [], isConst := false }, listeners := [] }
    (-1) { code := 2 } 9 5 rfl (by rfl)
  exact ⟨rfl, by rfl, hw.1.2.1, hw.1.2.2, hw.2.2.2.1⟩

/-- C9: the completion handlers for connection arrival, connect, write and
shutdown discriminate success from failure by testing the native status
against exactly -1: for every other status, including other negative
values, the success branch runs (emitting "connection" or "connect", or
invoking the callback with no error argument). -/
theorem status_discrimination (status : Int) (lastErr : UvErr) (reg : Registry)
    (cbs : IoCtx) (h : LuvHandle) (f k : Nat) (hs : status ≠ -1)
    (hcb : cbs.cbRef = some k) (hlk : reg.lookup k = some (RegVal.func f)) :
    luv_on_connection status lastErr = [Eff.emit "connection" []] ∧
    luv_after_connect status lastErr = [Eff.emit "connect" [], Eff.freeReq] ∧
    (luv_after_write reg cbs h status lastErr).effs =
      [Eff.acall f [] "after_write", Eff.freeCtx, Eff.freeReq] ∧
    (luv_after_shutdown reg cbs h status lastErr).effs =
      [Eff.acall f [] "after_shutdown", Eff.freeCtx, Eff.freeReq] := by
  simp [luv_on_connection, luv_after_connect, luv_after_write, luv_after_shutdown,
    luv_io_ctx_callback_rawgeti, hcb, hlk, hs]

/-- Witness for C9 at the negative status -2, which is not -1 and therefore
takes the success branch everywhere. -/
theorem status_discrimination_witness :
    ((-2 : Int) ≠ -1) ∧
    ((⟨some 5, none⟩ : IoCtx).cbRef = some 5) ∧
    (({ slots := [(5, RegVal.func 9)], next := 6 } : Registry).lookup 5
      = some (RegVal.func 9)) ∧
    (luv_on_connection (-2) { code := 4 } = [Eff.emit "connection" []] ∧
     luv_after_connect (-2) { code := 4 } = [Eff.emit "connect" [], Eff.freeReq] ∧
     (luv_after_write { slots := [(5, RegVal.func 9)], next := 6 } ⟨some 5, none⟩
        { refCount := 1, buffer := { data := [], isConst := false }, listeners := [] }
        (-2) { code := 4 }).effs =
       [Eff.acall 9 [] "after_write", Eff.freeCtx, Eff.freeReq] ∧
     (luv_after_shutdown { slots := [(5, RegVal.func 9)], next := 6 } ⟨some 5, none⟩
        { refCount := 1, buffer := { data := [], isConst := false }, listeners := [] }
        (-2) { code := 4 }).effs =
       [Eff.acall 9 [] "after_shutdown", Eff.freeCtx, Eff.freeReq]) := by
  refine ⟨by decide, rfl, by rfl, ?_⟩
  exact status_discrimination (-2) { code := 4 } { slots := [(5, RegVal.func 9)], next := 6 }
    ⟨some 5, none⟩
    { refCount := 1, buffer := { data := [], isConst := false }, listeners := [] }
    9 5 (by decide) rfl (by rfl)

/-- C3: for every on_read invocation with nread at least 0, the handle
buffer's read-only flag is set to true immediately before the "data"
dispatch and reset to false immediately after it returns (and is false in
the final state); if the flag is already true on entry, on_read raises an
error to the caller and delivers no data. -/
theorem on_read_readonly_bracket (h : LuvHandle) (nread : Int) (lastErr : UvErr)
    (hn : 0 ≤ nread) :
    (h.buffer.isConst = false →
       (luv_on_read h nread lastErr).raised = none ∧
       (∃ pre args,
          (pre = ([] : List Eff) ∨ pre = [Eff.sliceOp 0 nread.toNat]) ∧
          (luv_on_read h nread lastErr).effs =
            pre ++ [Eff.setConst true, Eff.emit "data" args, Eff.setConst false,
                    Eff.freeBufBase]) ∧
       (luv_on_read h nread lastErr).state.buffer.isConst = false) ∧
    (h.buffer.isConst = true →
       (luv_on_read h nread lastErr).raised = some readonly_reentry_msg ∧
       (luv_on_read h nread lastErr).effs = []) := by
  constructor
  · intro hc
    by_cases hlen : nread.toNat = h.buffer.data.length
    · refine ⟨?_, ⟨[], [LV.bufV h.buffer, LV.int nread], Or.inl rfl, ?_⟩, ?_⟩ <;>
        simp [luv_on_read, hn, hc, hlen]
    · refine ⟨?_, ⟨[Eff.sliceOp 0 nread.toNat],
        [LV.bufV (buffer_slice h.buffer 0 nread.toNat), LV.int nread], Or.inr rfl, ?_⟩, ?_⟩ <;>
        simp [luv_on_read, hn, hc, hlen]
  · intro hc
    constructor <;> simp [luv_on_read, hn, hc]

/-- Witness for C3: a 5-byte read into a 5-byte writable buffer sets and
clears the read-only flag around the dispatch and raises nothing. -/
theorem on_read_readonly_bracket_witness :
    (0 : Int) ≤ 5 ∧
    (luv_on_read hRead5 5 { code := 0 }).raised = none ∧
    (luv_on_read hRead5 5 { code := 0 }).state.buffer.isConst = false := by
  have hw := on_read_readonly_bracket hRead5 5 { code := 0 } (by decide)
  have h2 := hw.1 rfl
  exact ⟨by decide, h2.1, h2.2.2⟩

/-- C5: a "data" delivery with nread equal to the buffer length passes the
identical buffer with no slice; with nread below the length it passes a
slice of exactly nread bytes whose content is the first nread bytes of the
original. -/
theorem on_read_slice_semantics (h : LuvHandle) (nread : Int) (lastErr : UvErr)
    (hc : h.buffer.isConst = false) (hn : 0 ≤ nread) :
    (nread.toNat = h.buffer.data.length →
       (luv_on_read h nread lastErr).effs =
         [Eff.setConst true,
          Eff.emit "data" [LV.bufV h.buffer, LV.int nread],
          Eff.setConst false, Eff.freeBufBase]) ∧
    (nread.toNat < h.buffer.data.length →
       (luv_on_read h nread lastErr).effs =
         [Eff.sliceOp 0 nread.toNat,
          Eff.setConst true,
          Eff.emit "data" [LV.bufV (buffer_slice h.buffer 0 nread.toNat), LV.int nread],
          Eff.setConst false, Eff.freeBufBase] ∧
       (buffer_slice h.buffer 0 nread.toNat).data = h.buffer.data.take nread.toNat ∧
       (buffer_slice h.buffer 0 nread.toNat).data.length = nread.toNat) := by
  constructor
  · intro hlen
    simp [luv_on_read, hn, hc, hlen]
  · intro hlt
    have hne : nread.toNat ≠ h.buffer.data.length := Nat.ne_of_lt hlt
    refine ⟨by simp [luv_on_read, hn, hc, hne], by simp [buffer_slice], ?_⟩
    simp only [buffer_slice, List.drop_zero, List.length_take]
    omega

/-- Witness for C5: reading 3 bytes into a 5-byte buffer slices to the
first 3 bytes. -/
theorem on_read_slice_semantics_witness :
    bufW5.isConst = false ∧
    (0 : Int) ≤ 3 ∧
    (buffer_slice bufW5 0 (3 : Int).toNat).data = [1, 2, 3] ∧
    (buffer_slice bufW5 0 (3 : Int).toNat).data.length = (3 : Int).toNat := by
  have hw := on_read_slice_semantics hRead5 3 { code := 0 } rfl (by decide)
  have h2 := hw.2 (by decide)
  exact ⟨rfl, by decide, h2.2.1, h2.2.2⟩

/-- C6: for nread below 0, an EOF condition emits "end" with no arguments
and any other negative status emits "error" with one constructed error
value; on each of the data, end and error branches the native buffer's
backing allocation is freed exactly once. -/
theorem on_read_negative_branches_and_free (h : LuvHandle) (nread : Int) (lastErr : UvErr) :
    (nread < 0 →
       (lastErr.code = UV_EOF →
          (luv_on_read h nread lastErr).effs = [Eff.emit "end" [], Eff.freeBufBase]) ∧
       (lastErr.code ≠ UV_EOF →
          (luv_on_read h nread lastErr).effs =
            [Eff.emit "error" [luv_push_async_error lastErr "on_read"], Eff.freeBufBase])) ∧
    ((0 ≤ nread ∧ h.buffer.isConst = false) ∨ nread < 0 →
       countBufFrees (luv_on_read h nread lastErr).effs = 1) := by
  constructor
  · intro hneg
    have hn : ¬ (0 ≤ nread) := not_le.mpr hneg
    constructor
    · intro he
      simp [luv_on_read, hn, he]
    · intro he
      simp [luv_on_read, hn, he]
  · rintro (⟨hn, hc⟩ | hneg)
    · by_cases hlen : nread.toNat = h.buffer.data.length <;>
        simp [luv_on_read, hn, hc, hlen, countBufFrees]
    · have hn : ¬ (0 ≤ nread) := not_le.mpr hneg
      by_cases he : lastErr.code = UV_EOF <;>
        simp [luv_on_read, hn, he, countBufFrees]

/-- Witness for C6: an EOF completion on a 3-byte buffer emits "end" and
frees the backing allocation exactly once. -/
theorem on_read_negative_branches_witness :
    (luv_on_read hRead3 (-1) { code := 27 }).effs =
      [Eff.emit "end" [], Eff.freeBufBase] ∧
    countBufFrees (luv_on_read hRead3 (-1) { code := 27 }).effs = 1 := by
  have hw := on_read_negative_branches_and_free hRead3 (-1) { code := 27 }
  exact ⟨(hw.1 (by decide)).1 rfl, hw.2 (Or.inr (by decide))⟩

/-- C4 counterexample: on a fresh handle, a listen whose native setup call
fails (uv_listen returning -1) does raise synchronously, but the
"connection" listener registration has already taken effect on the handle
and is not rolled back, contradicting the claim that no registration takes
effect in the failure case. -/
theorem listen_failure_counterexample :
    (luv_listen hFresh 7 none (-1) { code := 0 }).raised.isSome = true ∧
    ("connection", 7) ∈ (luv_listen hFresh 7 none (-1) { code := 0 }).state.listeners := by
  constructor
  · rfl
  · simp [luv_listen, luv_register_event, hFresh]

/-- C4 amended: when listen fails at native setup time it raises an error
synchronously to the caller, emits no "listening" event and pins no
keep-alive reference; however the "connection" listener registration is
performed before the native call and remains in effect on the handle. -/
theorem listen_failure_amended (h : LuvHandle) (cb : Nat) (backlog : Option Nat)
    (r : Int) (lastErr : UvErr) (hr : r ≠ 0) :
    (luv_listen h cb backlog r lastErr).raised
      = some ("listen: " ++ uv_strerror lastErr) ∧
    (luv_listen h cb backlog r lastErr).state.listeners
      = h.listeners ++ [("connection", cb)] ∧
    (luv_listen h cb backlog r lastErr).state.refCount = h.refCount ∧
    ∀ args, Eff.emit "listening" args ∉ (luv_listen h cb backlog r lastErr).effs := by
  refine ⟨?_, ?_, ?_, ?_⟩ <;>
    simp [luv_listen, luv_register_event, hr]

/-- Witness for C4 at a fresh handle and native result 2. -/
theorem listen_failure_amended_witness :
    (2 : Int) ≠ 0 ∧
    (luv_listen hFresh 7 none 2 { code := 9 }).raised
      = some ("listen: " ++ uv_strerror { code := 9 }) ∧
    (luv_listen hFresh 7 none 2 { code := 9 }).state.listeners = [("connection", 7)] ∧
    (luv_listen hFresh 7 none 2 { code := 9 }).state.refCount = 0 := by
  have hw := listen_failure_amended hFresh 7 none 2 { code := 9 } (by decide)
  exact ⟨by decide, hw.1, hw.2.1, hw.2.2.1⟩

/-- C7: every write registers both the buffer and the callback in the
request's callback context, the registered buffer reference keeps the
buffer value reachable from the reference table (so its byte storage is
neither freed nor reused), the raw view handed to uv_write is exactly the
chunk's bytes, and the buffer reference is released (only) by the write's
completion handler. -/
theorem write_registers_buffer_and_callback (reg : Registry) (h : LuvHandle)
    (chunk : Buffer) (cbv : RegVal) :
    ∃ kd kc,
      (luv_write reg h chunk cbv).req.cbs.dataRef = some kd ∧
      (luv_write reg h chunk cbv).req.cbs.cbRef = some kc ∧
      (luv_write reg h chunk cbv).reg.lookup kd = some (RegVal.buf chunk) ∧
      (luv_write reg h chunk cbv).reg.lookup kc = some cbv ∧
      Registry.keepsAlive (luv_write reg h chunk cbv).reg (RegVal.buf chunk) ∧
      (luv_write reg h chunk cbv).req.nativeBuf = chunk.data ∧
      ∀ status lastErr,
        (luv_after_write (luv_write reg h chunk cbv).reg (luv_write reg h chunk cbv).req.cbs
            (luv_write reg h chunk cbv).handle status lastErr).reg.lookup kd = none := by
  have hne : reg.next + 1 ≠ reg.next := by omega
  refine ⟨reg.next, reg.next + 1, rfl, rfl, ?_, ?_, ?_, rfl, ?_⟩
  · simp [luv_write, luv_io_ctx_add, luv_io_ctx_callback_add, luv_io_ctx_init,
      Registry.register, Registry.lookup, hne]
  · simp [luv_write, luv_io_ctx_add, luv_io_ctx_callback_add, luv_io_ctx_init,
      Registry.register, Registry.lookup]
  · refine ⟨(reg.next, RegVal.buf chunk), ?_, rfl⟩
    simp [luv_write, luv_io_ctx_add, luv_io_ctx_callback_add, luv_io_ctx_init,
      Registry.register]
  · intro status lastErr
    have hd : (luv_write reg h chunk cbv).req.cbs.dataRef = some reg.next := rfl
    simp only [luv_after_write]
    exact lookup_unref_data (luv_write reg h chunk cbv).reg
      (luv_write reg h chunk cbv).req.cbs reg.next hd

/-- Witness for C7: writing the 3-byte buffer with callback 7 from an
empty registry keeps the buffer reachable from the reference table and
hands uv_write exactly its bytes. -/
theorem write_registers_buffer_and_callback_witness :
    Registry.keepsAlive (luv_write { slots := [], next := 0 } hFresh bufW3
      (RegVal.func 7)).reg (RegVal.buf bufW3) ∧
    (luv_write { slots := [], next := 0 } hFresh bufW3 (RegVal.func 7)).req.nativeBuf
      = bufW3.data := by
  obtain ⟨kd, kc, h1, h2, h3, h4, h5, h6, h7⟩ :=
    write_registers_buffer_and_callback { slots := [], next := 0 } hFresh bufW3
      (RegVal.func 7)
  exact ⟨h5, h6⟩

/-- C10: the POSIX lenv_get passes the result of getenv unconditionally to
strlen and buffer_wrap, so for every name not present in the environment
the NULL result is dereferenced (a crash), not returned as an absent
value; for a present name it wraps the value's bytes. -/
theorem lenv_get_requires_presence (env : Env) (name : String) :
    (getenv env name = none →
       lenv_get env name = CrashOr.crash "null pointer dereference in strlen") ∧
    (∀ v, getenv env name = some v →
       lenv_get env name =
         CrashOr.ok { data := (v.toList.map Char.toNat).take v.length,
                      isConst := false }) := by
  constructor
  · intro hn
    simp [lenv_get, hn, strlen]
  · intro v hv
    simp [lenv_get, hv, strlen, buffer_wrap]

/-- Witness for C10: looking HOME up in an environment holding only PATH
crashes on the NULL returned by getenv. -/
theorem lenv_get_requires_presence_witness :
    getenv [("PATH", "/bin")] "HOME" = none ∧
    lenv_get [("PATH", "/bin")] "HOME"
      = CrashOr.crash "null pointer dereference in strlen" := by
  have hw := lenv_get_requires_presence [("PATH", "/bin")] "HOME"
  have hnone : getenv [("PATH", "/bin")] "HOME" = none := by decide
  exact ⟨hnone, hw.1 hnone⟩
